import Mathlib

/-!
Verification of the Contra-Game simulation core.

The engine versions present in the repository share one data model
(`src/types.ts`) and converge on the design of `src/components/GameEngine.tsx`
(whose constants are the 512x480 set).  The definitions below are a shallow
embedding of that code: JavaScript numbers are modelled as rationals,
transcendental functions (`Math.cos`, `Math.sin`, `Math.atan2`) and
`Math.random` jitter are abstracted as parameters, and fields that feed the
renderer only (color, animation state, rotation angle, text glyph) are
omitted from the entity record.  Where a claim also cites the older engine
variants (`src/GameEngine.tsx`, the engine appended to `src/types.ts`), the
relevant fragment of that variant is embedded separately under an `Src` or
`TypesVariant` prefix.
-/

namespace Contra

/-! ### Constants (src/unnamed/part_002, the constants imported by components/GameEngine.tsx) -/

def CANVAS_WIDTH : ℚ := 512

def CANVAS_HEIGHT : ℚ := 480

def GRAVITY : ℚ := 1/2

def PLAYER_SPEED : ℚ := 7/2

def ROCKET_SPEED : ℚ := 8

def JUMP_FORCE : ℚ := 11

def BULLET_SPEED : ℚ := 10

def ENEMY_SPEED : ℚ := 2

/-! ### Data model (src/types.ts) -/

inductive EntityType where
  | PLAYER
  | ENEMY_RUNNER
  | ENEMY_TURRET
  | ENEMY_FLYING
  | ENEMY_TANK
  | ENEMY_SNIPER
  | ENEMY_MINE
  | ENEMY_BOSS
  | BULLET_PLAYER
  | BULLET_ENEMY
  | BULLET_ROCKET
  | PARTICLE
  | PLATFORM
  | BRIDGE
  | WATER
  | POWERUP_CAPSULE
deriving DecidableEq, Repr

inductive WeaponType where
  | NORMAL
  | SPREAD
  | LASER
  | MACHINE_GUN
deriving DecidableEq, Repr

structure Vec2 where
  x : ℚ
  y : ℚ
deriving DecidableEq, Repr

/-- GameObject of src/types.ts.  Purely visual fields (color, animation
state string, rotation angle, popup text) are omitted; numeric fields are
rationals (JS numbers), counters are integers. -/
structure Entity where
  id : String
  type : EntityType
  pos : Vec2
  vel : Vec2
  size : Vec2
  health : ℤ
  active : Bool
  facing : ℚ
  grounded : Bool := false
  cooldown : ℤ := 0
  invincibility : ℤ := 0
  jumpCount : ℤ := 0
  weaponType : WeaponType := .NORMAL
  dropType : Option WeaponType := none
  piercing : Bool := false
  rocketTimer : ℤ := 0
deriving DecidableEq, Repr

/-- Default entity used for out-of-range list reads; it is inactive, so it
behaves like the absent element a JavaScript loop would never visit. -/
instance : Inhabited Entity :=
  ⟨{ id := "", type := .PARTICLE, pos := ⟨0, 0⟩, vel := ⟨0, 0⟩, size := ⟨0, 0⟩,
     health := 0, active := false, facing := 1 }⟩

structure GameState where
  score : ℤ
  lives : ℤ
  gameOver : Bool
  gameWon : Bool
deriving DecidableEq, Repr

-- Rational arithmetic in this file is evaluated by the kernel when claims
-- are instantiated at concrete states; these core operations are otherwise
-- sealed against unfolding, which only blocks that evaluation.
attribute [local semireducible] Rat.add Rat.sub Rat.mul

/-- checkRectOverlap (components/GameEngine.tsx lines 12-19): strict AABB
overlap test. -/
def checkRectOverlap (a b : Entity) : Bool :=
  decide (a.pos.x < b.pos.x + b.size.x ∧
          a.pos.x + a.size.x > b.pos.x ∧
          a.pos.y < b.pos.y + b.size.y ∧
          a.pos.y + a.size.y > b.pos.y)

/-! ### Platform collision resolver (components/GameEngine.tsx lines 114-137) -/

/-- The full qualifying condition the loop body of checkPlatformCollisions
tests for one candidate platform: platform/bridge kind, active, horizontal
overlap with a 4px inward tolerance on both edges, current foot Y at/below
the platform top, previous-frame foot Y (foot Y minus vertical velocity)
at/above the top within the 16px tolerance band. -/
def platQualifies (entity other : Entity) : Bool :=
  decide ((other.type = EntityType.PLATFORM ∨ other.type = EntityType.BRIDGE) ∧
          other.active = true ∧
          entity.pos.x + entity.size.x > other.pos.x + 4 ∧
          entity.pos.x < other.pos.x + other.size.x - 4 ∧
          entity.pos.y + entity.size.y ≥ other.pos.y ∧
          entity.pos.y + entity.size.y - entity.vel.y ≤ other.pos.y + 16)

/-- Effect of landing on a platform: snap feet to the platform top, zero the
vertical velocity, set grounded; the player additionally has the jump
counter reset. -/
def landOn (entity other : Entity) : Entity :=
  { entity with
    pos := ⟨entity.pos.x, other.pos.y - entity.size.y⟩,
    vel := ⟨entity.vel.x, 0⟩,
    grounded := true,
    jumpCount := if entity.id = "player" then 0 else entity.jumpCount }

/-- checkPlatformCollisions (components/GameEngine.tsx lines 114-137): skip
when moving up, otherwise land on the first qualifying platform in
iteration order and stop. -/
def checkPlatformCollisions (entity : Entity) (others : List Entity) : Entity :=
  if entity.vel.y < 0 then entity
  else
    match others.find? (platQualifies entity) with
    | some other => landOn entity other
    | none => entity

/-- C1: for every actor with non-negative vertical velocity, platform
resolution against a list whose first qualifying platform (platform/bridge
kind, active, horizontally overlapping within tolerance, top between the
previous and current foot Y) is `other` ends with the grounded flag true,
vertical velocity zero, and foot Y exactly the top of that first qualifying
platform; no later platform is consulted. -/
theorem c1_platform_landing (entity other : Entity) (others : List Entity)
    (hvy : 0 ≤ entity.vel.y)
    (hfind : others.find? (platQualifies entity) = some other) :
    (checkPlatformCollisions entity others).grounded = true ∧
    (checkPlatformCollisions entity others).vel.y = 0 ∧
    (checkPlatformCollisions entity others).pos.y +
      (checkPlatformCollisions entity others).size.y = other.pos.y := by
  unfold checkPlatformCollisions
  rw [if_neg (by exact not_lt.mpr hvy), hfind]
  refine ⟨rfl, rfl, ?_⟩
  simp [landOn]

/-- Concrete instantiation of C1: an actor falling at 8 px/frame lands on
the first of two overlapping platforms. -/
def c1Actor : Entity :=
  { id := "player", type := .PLAYER, pos := ⟨100, 92⟩, vel := ⟨0, 8⟩,
    size := ⟨20, 44⟩, health := 1, active := true, facing := 1 }

def c1Plat1 : Entity :=
  { id := "plat-1", type := .PLATFORM, pos := ⟨80, 130⟩, vel := ⟨0, 0⟩,
    size := ⟨200, 30⟩, health := 999, active := true, facing := 1 }

def c1Plat2 : Entity :=
  { id := "plat-2", type := .PLATFORM, pos := ⟨80, 134⟩, vel := ⟨0, 0⟩,
    size := ⟨200, 30⟩, health := 999, active := true, facing := 1 }

theorem c1_platform_landing_witness :
    (checkPlatformCollisions c1Actor [c1Plat1, c1Plat2]).grounded = true ∧
    (checkPlatformCollisions c1Actor [c1Plat1, c1Plat2]).vel.y = 0 ∧
    (checkPlatformCollisions c1Actor [c1Plat1, c1Plat2]).pos.y +
      (checkPlatformCollisions c1Actor [c1Plat1, c1Plat2]).size.y = c1Plat1.pos.y :=
  c1_platform_landing c1Actor c1Plat1 [c1Plat1, c1Plat2] (by norm_num [c1Actor])
    (by norm_num [List.find?, platQualifies, c1Actor, c1Plat1])

/-! ### Camera update (components/GameEngine.tsx lines 868-875) -/

/-- One tick of the camera: follow the player forward only, then clamp at
the boss wall (the entity with id "boss-wall", looked up in the entity
list) minus the viewport width plus the 50px margin. -/
def camTick (cam playerX : ℚ) (ents : List Entity) : ℚ :=
  let targetX := playerX - CANVAS_WIDTH / 3
  let cam1 := if targetX > cam then targetX else cam
  match ents.find? (fun e => e.id == "boss-wall") with
  | some bossWall =>
      if cam1 > bossWall.pos.x - CANVAS_WIDTH + 50 then bossWall.pos.x - CANVAS_WIDTH + 50
      else cam1
  | none => cam1

/-- Camera trajectory across ticks: camera starts at 0 (level start /
reset); each tick sees that tick's player X and entity list. -/
def camSeq (ps : ℕ → ℚ) (es : ℕ → List Entity) : ℕ → ℚ
  | 0 => 0
  | n + 1 => camTick (camSeq ps es n) (ps n) (es n)

theorem camTick_le_clamp (cam playerX : ℚ) (ents : List Entity) (w : Entity)
    (hfind : ents.find? (fun e => e.id == "boss-wall") = some w)
    (hcam : cam ≤ w.pos.x - CANVAS_WIDTH + 50) :
    camTick cam playerX ents ≤ w.pos.x - CANVAS_WIDTH + 50 := by
  unfold camTick
  rw [hfind]
  dsimp only
  split_ifs <;> linarith

theorem camTick_mono (cam playerX : ℚ) (ents : List Entity) (w : Entity)
    (hfind : ents.find? (fun e => e.id == "boss-wall") = some w)
    (hcam : cam ≤ w.pos.x - CANVAS_WIDTH + 50) :
    cam ≤ camTick cam playerX ents := by
  unfold camTick
  rw [hfind]
  dsimp only
  split_ifs <;> linarith

theorem camSeq_le_clamp (ps : ℕ → ℚ) (es : ℕ → List Entity) (w : Entity)
    (hfind : ∀ n, (es n).find? (fun e => e.id == "boss-wall") = some w)
    (hw : 0 ≤ w.pos.x - CANVAS_WIDTH + 50) :
    ∀ n, camSeq ps es n ≤ w.pos.x - CANVAS_WIDTH + 50 := by
  intro n
  induction n with
  | zero => simpa [camSeq] using hw
  | succ n ih => exact camTick_le_clamp _ _ _ w (hfind n) ih

/-- C3: starting from camera 0, for any per-tick player positions and
entity lists that contain the boss wall, the camera X never decreases from
one tick to the next and at the end of every tick never exceeds the boss
wall X minus the viewport width plus the 50px margin. -/
theorem c3_camera_monotone_and_clamped (ps : ℕ → ℚ) (es : ℕ → List Entity) (w : Entity)
    (hfind : ∀ n, (es n).find? (fun e => e.id == "boss-wall") = some w)
    (hw : 0 ≤ w.pos.x - CANVAS_WIDTH + 50) :
    ∀ n, camSeq ps es n ≤ camSeq ps es (n + 1) ∧
      camSeq ps es (n + 1) ≤ w.pos.x - CANVAS_WIDTH + 50 := by
  intro n
  refine ⟨?_, camSeq_le_clamp ps es w hfind hw (n + 1)⟩
  exact camTick_mono _ _ _ w (hfind n) (camSeq_le_clamp ps es w hfind hw n)

/-- The boss wall as generateLevel builds it (components/GameEngine.tsx
lines 355-365): x = 5200 + 640. -/
def c3Wall : Entity :=
  { id := "boss-wall", type := .PLATFORM, pos := ⟨5840, 0⟩, vel := ⟨0, 0⟩,
    size := ⟨100, CANVAS_HEIGHT⟩, health := 999, active := true, facing := 1 }

theorem c3_camera_monotone_and_clamped_witness :
    camSeq (fun _ => 600) (fun _ => [c3Wall]) 0 ≤ camSeq (fun _ => 600) (fun _ => [c3Wall]) 1 ∧
    camSeq (fun _ => 600) (fun _ => [c3Wall]) 1 ≤ c3Wall.pos.x - CANVAS_WIDTH + 50 :=
  c3_camera_monotone_and_clamped (fun _ => 600) (fun _ => [c3Wall]) c3Wall
    (by intro n; norm_num [List.find?, c3Wall])
    (by norm_num [c3Wall, CANVAS_WIDTH]) 0

/-! ### Culling (components/GameEngine.tsx lines 877-883 and src/GameEngine.tsx lines 554-558) -/

/-- Kinds the components-engine culling pass always keeps: platform, bridge,
water, boss, and the boss-wall marker entity. -/
def isPermanentKeep (e : Entity) : Bool :=
  decide (e.type = EntityType.PLATFORM ∨ e.type = EntityType.BRIDGE ∨
          e.type = EntityType.WATER ∨ e.type = EntityType.ENEMY_BOSS ∨
          e.id = "boss-wall")

/-- Per-entity keep predicate of the components-engine culling pass
(lines 877-883): permanent kinds are always kept, everything else only
while active and within the 500px margin window around the camera span. -/
def componentsCullKeep (cam : ℚ) (e : Entity) : Bool :=
  if isPermanentKeep e then true
  else
    e.active && decide (e.pos.x > cam - 500) && decide (e.pos.x < cam + CANVAS_WIDTH + 500)

/-- One culling pass of the components engine. -/
def componentsCull (cam : ℚ) (ents : List Entity) : List Entity :=
  ents.filter (componentsCullKeep cam)

/-- Viewport width of src/constants.ts, used by the src/GameEngine.tsx
variant. -/
def SRC_CANVAS_WIDTH : ℚ := 800

/-- Cleanup filter of the src/GameEngine.tsx variant (lines 554-558): only
water and the boss wall are exempt from the view-window test, and every
inactive entity is removed. -/
def srcCullKeep (cam : ℚ) (e : Entity) : Bool :=
  let inView := decide (e.pos.x > cam - 100) && decide (e.pos.x < cam + SRC_CANVAS_WIDTH + 100)
  let isPermanent := decide (e.type = EntityType.WATER ∨ e.id = "boss-wall")
  e.active && (isPermanent || inView)

/-- An ordinary ground platform as the src variant generates it. -/
def c4Plat : Entity :=
  { id := "floor-0", type := .PLATFORM, pos := ⟨0, 390⟩, vel := ⟨0, 0⟩,
    size := ⟨200, 100⟩, health := 999, active := true, facing := 1 }

/-- C4 counterexample: the claim also cites the culling pass of
src/GameEngine.tsx, and that pass removes an active platform entity as soon
as it is outside the view window — here the first floor platform once the
camera has scrolled to x = 1500 — so "platforms ... are never removed by
the per-frame culling pass, for any camera position" is false on that code. -/
theorem c4_counterexample :
    c4Plat.type = EntityType.PLATFORM ∧ c4Plat.active = true ∧
    srcCullKeep 1500 c4Plat = false := by
  refine ⟨rfl, rfl, ?_⟩
  norm_num [srcCullKeep, c4Plat, SRC_CANVAS_WIDTH]
  exact ⟨by decide, by decide⟩

/-- C4 (amended): in the components engine, permanent entities (platforms,
bridges, water, the boss, the boss-wall marker) survive any number of
culling passes at any camera positions, and every other entity is kept by a
pass exactly when it is active and within the 500px margin window around
the camera span; in the src/GameEngine.tsx variant only an active water
zone or boss wall is unconditionally kept, while platforms there are
subject to the view window (see the counterexample). -/
theorem c4_culling_policy :
    (∀ (cams : List ℚ) (ents : List Entity) (e : Entity),
        e ∈ ents → isPermanentKeep e = true →
        e ∈ cams.foldl (fun l c => componentsCull c l) ents) ∧
    (∀ (cam : ℚ) (e : Entity), isPermanentKeep e = false →
        (componentsCullKeep cam e = true ↔
          (e.active = true ∧ cam - 500 < e.pos.x ∧ e.pos.x < cam + CANVAS_WIDTH + 500))) ∧
    (∀ (cam : ℚ) (e : Entity),
        (e.type = EntityType.WATER ∨ e.id = "boss-wall") → e.active = true →
        srcCullKeep cam e = true) := by
  refine ⟨?_, ?_, ?_⟩
  · intro cams
    induction cams with
    | nil => intro ents e he _; simpa using he
    | cons c cs ih =>
        intro ents e he hperm
        refine ih (componentsCull c ents) e ?_ hperm
        exact List.mem_filter.mpr ⟨he, by simp [componentsCullKeep, hperm]⟩
  · intro cam e hperm
    simp only [componentsCullKeep, hperm, if_neg, Bool.false_eq_true, if_false,
      Bool.and_eq_true, decide_eq_true_eq]
    constructor
    · rintro h
      exact ⟨h.1.1, by linarith [h.1.2], h.2⟩
    · rintro ⟨ha, h1, h2⟩
      exact ⟨⟨ha, by linarith⟩, h2⟩
  · intro cam e hperm ha
    simp [srcCullKeep, ha, hperm]

theorem c4_culling_policy_witness :
    c3Wall ∈ [(1000 : ℚ), 2000, 3000].foldl (fun l c => componentsCull c l) [c3Wall] :=
  c4_culling_policy.1 [1000, 2000, 3000] [c3Wall] c3Wall (by simp)
    (by norm_num [isPermanentKeep, c3Wall])

/-! ### Weapon system (components/GameEngine.tsx lines 591-663) -/

structure InputState where
  left : Bool := false
  right : Bool := false
  up : Bool := false
  down : Bool := false
  jump : Bool := false
  shoot : Bool := false
  altFire : Bool := false
deriving DecidableEq, Repr

/-- Aim-direction resolution (lines 601-622): dirX defaults to the facing
and the 8-way input blend overrides it; ducking on the ground aims straight
ahead; rocket mode forces straight ahead. -/
def aimDir (player : Entity) (input : InputState) : ℚ × ℚ :=
  let isMoving := input.left || input.right
  let dxy : ℚ × ℚ :=
    if input.up then
      if isMoving then (player.facing * (707/1000), -(707/1000)) else (0, -1)
    else if input.down then
      if player.grounded then (player.facing, 0)
      else if isMoving then (player.facing * (707/1000), 707/1000) else (0, 1)
    else (player.facing, 0)
  if player.rocketTimer > 0 then (1, 0) else dxy

def SIZES_BULLET : Vec2 := ⟨6, 6⟩

def SIZES_SPREAD_BULLET : Vec2 := ⟨8, 8⟩

def SIZES_LASER_BULLET : Vec2 := ⟨24, 6⟩

/-- The spawnBullet closure (lines 624-643).  The random id suffix and the
rendering-only angle field are omitted. -/
def mkPlayerBullet (player : Entity) (input : InputState)
    (useSpread useLaser : Bool) (vx vy : ℚ) : Entity :=
  let spawnY : ℚ :=
    if player.rocketTimer ≠ 0 then player.pos.y + 20
    else if input.up then player.pos.y - 4
    else if input.down && player.grounded then player.pos.y + 16
    else player.pos.y + 8
  { id := "pbul", type := .BULLET_PLAYER,
    pos := ⟨player.pos.x + player.size.x / 2 - 4, spawnY⟩,
    vel := ⟨vx, vy⟩,
    size := if useSpread then SIZES_SPREAD_BULLET
            else if useLaser then SIZES_LASER_BULLET else SIZES_BULLET,
    health := 1, active := true, facing := player.facing,
    piercing := useLaser || decide (player.rocketTimer > 0) }

structure FireResult where
  player : Entity
  bullets : List Entity
deriving Repr

/-- Shooting block (lines 591-660).  cosQ, sinQ, atan2Q stand for
Math.cos/sin/atan2 and mgJitter for the machine gun's random vertical
jitter; they are parameters because they only influence velocity components
of spread/machine-gun bullets, never how many bullets are created nor the
cooldown.  The JavaScript guard `dirX || facing*0.01` treats 0 as falsy,
hence the zero test on the first component. -/
def fireWeapon (cosQ sinQ : ℚ → ℚ) (atan2Q : ℚ → ℚ → ℚ) (mgJitter : ℚ)
    (player : Entity) (input : InputState) : FireResult :=
  let isShooting := input.shoot || input.altFire
  if isShooting && decide (player.cooldown ≤ 0) then
    let useSpread := decide (player.weaponType = .SPREAD) || input.altFire
    let useLaser := decide (player.weaponType = .LASER) && !input.altFire
    let useMG := decide (player.weaponType = .MACHINE_GUN) && !input.altFire
    let bSpeed := if useLaser then BULLET_SPEED * (3/2) else BULLET_SPEED
    let d := aimDir player input
    if useSpread then
      let base := atan2Q d.2 (if d.1 = 0 then player.facing * (1/100) else d.1)
      let angles : List ℚ := [base, base - 1/4, base - 12/100, base + 12/100, base + 1/4]
      { player := { player with cooldown := 12 },
        bullets := angles.map (fun a =>
          mkPlayerBullet player input useSpread useLaser (cosQ a * bSpeed) (sinQ a * bSpeed)) }
    else if useMG then
      { player := { player with cooldown := 4 },
        bullets := [mkPlayerBullet player input useSpread useLaser
          (d.1 * bSpeed) (d.2 * bSpeed + mgJitter)] }
    else
      { player := { player with cooldown := if useLaser then 15 else 9 },
        bullets := [mkPlayerBullet player input useSpread useLaser
          (d.1 * bSpeed) (d.2 * bSpeed)] }
  else { player := player, bullets := [] }

/-- End-of-tick cooldown decrement (line 662). -/
def cooldownTick (p : Entity) : Entity :=
  if p.cooldown > 0 then { p with cooldown := p.cooldown - 1 } else p

/-- End-of-tick invincibility decrement (line 663). -/
def invincibilityTick (p : Entity) : Entity :=
  if p.invincibility > 0 then { p with invincibility := p.invincibility - 1 } else p

/-- C7: a fire trigger that passes the cooldown gate with the alternate-fire
input not held creates exactly 5 player bullets on the spread tier and
exactly 1 on the normal, laser and machine-gun tiers. -/
theorem c7_bullet_pattern_sizes (cosQ sinQ : ℚ → ℚ) (atan2Q : ℚ → ℚ → ℚ) (mgJitter : ℚ)
    (player : Entity) (input : InputState)
    (haf : input.altFire = false) (hsh : input.shoot = true)
    (hcd : player.cooldown ≤ 0) :
    (fireWeapon cosQ sinQ atan2Q mgJitter player input).bullets.length =
      if player.weaponType = WeaponType.SPREAD then 5 else 1 := by
  cases hw : player.weaponType <;>
    simp [fireWeapon, haf, hsh, hcd, hw]

/-- A grounded, resting player with the default record fields, used to
instantiate the weapon-system theorems. -/
def restingPlayer : Entity :=
  { id := "player", type := .PLAYER, pos := ⟨100, 100⟩, vel := ⟨0, 0⟩,
    size := ⟨20, 44⟩, health := 1, active := true, facing := 1, grounded := true }

theorem c7_bullet_pattern_sizes_witness :
    (fireWeapon id id (fun _ _ => 0) 0
        { restingPlayer with weaponType := .SPREAD } { shoot := true }).bullets.length = 5 := by
  have h := c7_bullet_pattern_sizes id id (fun _ _ => 0) 0
    { restingPlayer with weaponType := .SPREAD } { shoot := true } rfl rfl
    (by norm_num [restingPlayer])
  simpa using h

/-- The input snapshot of the C8 scenario: fire is pressed and no
directional input is held. -/
def fireOnlyInput : InputState := { shoot := true }

/-- C8: a grounded player at rest with the normal tier and facing +1 who
presses fire with no directional aim input creates exactly one bullet with
velocity (BULLET_SPEED, 0) and has the cooldown counter set to the
normal-tier value 9; and a fire input on any tick on which the cooldown
counter is still positive creates no bullet. -/
theorem c8_normal_fire_and_cooldown (cosQ sinQ : ℚ → ℚ) (atan2Q : ℚ → ℚ → ℚ) (mgJitter : ℚ)
    (player : Entity)
    (hg : player.grounded = true) (hv : player.vel = ⟨0, 0⟩)
    (hw : player.weaponType = WeaponType.NORMAL) (hf : player.facing = 1)
    (hr : player.rocketTimer = 0) (hcd : player.cooldown ≤ 0) :
    (fireWeapon cosQ sinQ atan2Q mgJitter player fireOnlyInput).bullets.map (fun b => b.vel) =
      [⟨BULLET_SPEED, 0⟩] ∧
    (fireWeapon cosQ sinQ atan2Q mgJitter player fireOnlyInput).player.cooldown = 9 ∧
    (∀ (q : Entity) (input2 : InputState), 0 < q.cooldown →
      (fireWeapon cosQ sinQ atan2Q mgJitter q input2).bullets = []) := by
  refine ⟨?_, ?_, ?_⟩
  · simp [fireWeapon, fireOnlyInput, hw, hcd, aimDir, hr, hf, mkPlayerBullet]
  · simp [fireWeapon, fireOnlyInput, hw, hcd]
  · intro q input2 hq
    simp [fireWeapon, not_le.mpr hq]

theorem c8_normal_fire_and_cooldown_witness :
    (fireWeapon id id (fun _ _ => 0) 0 restingPlayer fireOnlyInput).bullets.map (fun b => b.vel) =
      [⟨BULLET_SPEED, 0⟩] ∧
    (fireWeapon id id (fun _ _ => 0) 0 restingPlayer fireOnlyInput).player.cooldown = 9 ∧
    (∀ (q : Entity) (input2 : InputState), 0 < q.cooldown →
      (fireWeapon id id (fun _ _ => 0) 0 q input2).bullets = []) :=
  c8_normal_fire_and_cooldown id id (fun _ _ => 0) 0 restingPlayer rfl rfl rfl rfl rfl
    (by norm_num [restingPlayer])

/-! ### Interaction resolver (components/GameEngine.tsx lines 789-866)

The world state at interaction time: the entity list (the player is stored
separately from it, as in the source), the player, and the score/lives
record.  JavaScript's forEach visits the indices that existed when the loop
started and reads each element's current value, so the passes below fold
over `List.range` of the length captured at loop entry while the list may
grow through particle spawns. -/

structure St where
  ents : List Entity
  player : Entity
  gs : GameState
deriving Repr

/-- spawnExplosion (lines 68-85): pushes 20 (big) or 8 particles.  The
random position/velocity jitter and the alternating colors feed rendering
only and are abstracted to fixed values. -/
def explosionParticle (pos : Vec2) (big : Bool) : Entity :=
  { id := "exp", type := .PARTICLE, pos := pos, vel := ⟨0, 0⟩,
    size := if big then ⟨8, 8⟩ else ⟨4, 4⟩, health := if big then 40 else 20,
    active := true, facing := 1 }

def spawnExplosion (ents : List Entity) (pos : Vec2) (big : Bool) : List Entity :=
  ents ++ List.replicate (if big then 20 else 8) (explosionParticle pos big)

/-- The floating weapon-letter popup spawned on a power-up kill (lines
821-825); the letter itself is rendering-only and omitted. -/
def textPopupParticle (pos : Vec2) : Entity :=
  { id := "float", type := .PARTICLE, pos := pos, vel := ⟨0, -1⟩,
    size := ⟨0, 0⟩, health := 60, active := true, facing := 1 }

/-- The small hit spark spawned when the boss survives a hit (lines
828-832); random velocity abstracted to zero. -/
def hitSparkParticle (pos : Vec2) : Entity :=
  { id := "hit", type := .PARTICLE, pos := pos, vel := ⟨0, 0⟩,
    size := ⟨2, 2⟩, health := 5, active := true, facing := 1 }

/-- Lives accounting of handlePlayerDeath (lines 94-97): decrement, and
floor to 2 when it would go negative (unlimited continues). -/
def livesAfterDeath (lives : ℤ) : ℤ :=
  if lives - 1 < 0 then 2 else lives - 1

/-- Synchronous part of handlePlayerDeath (lines 87-112): no-op when the
player is already inactive; otherwise deactivate, spawn a big explosion and
update lives.  The deferred setTimeout respawn is modelled separately by
componentsRespawnFire. -/
def handlePlayerDeath (st : St) : St :=
  if st.player.active = false then st
  else
    { st with
      player := { st.player with active := false },
      ents := spawnExplosion st.ents st.player.pos true,
      gs := { st.gs with lives := livesAfterDeath st.gs.lives } }

/-- Enemy kinds a player bullet damages (line 796). -/
def isEnemyTargetType (t : EntityType) : Bool :=
  decide (t = EntityType.ENEMY_RUNNER ∨ t = EntityType.ENEMY_TURRET ∨
          t = EntityType.ENEMY_FLYING ∨ t = EntityType.ENEMY_TANK ∨
          t = EntityType.ENEMY_BOSS ∨ t = EntityType.ENEMY_SNIPER)

/-- Inner-loop body of the player-bullet block (lines 794-836): for the
bullet at index i and the candidate target at index j, skip inactive
targets, otherwise on overlap deactivate a non-piercing bullet, decrement
the target's health, and on a zero crossing deactivate the target, spawn
its explosion, add score (boss also sets the won flag), and a power-up kill
sets the player's weapon tier.  The JavaScript `dropType || SPREAD` treats
the NORMAL tier (enum value 0) as falsy. -/
def pairwiseHit (st : St) (i j : ℕ) : St :=
  let e := st.ents.getD i default
  let target := st.ents.getD j default
  if target.active = false then st
  else
    let isEnemy := isEnemyTargetType target.type
    let isPowerup : Bool := decide (target.type = EntityType.POWERUP_CAPSULE)
    let isMine : Bool := decide (target.type = EntityType.ENEMY_MINE)
    if (isEnemy || isPowerup || isMine) && checkRectOverlap e target then
      let ents1 := if e.piercing then st.ents else st.ents.set i { e with active := false }
      let target1 := { target with health := target.health - 1 }
      if target1.health ≤ 0 then
        let ents2 := ents1.set j { target1 with active := false }
        if target.type = EntityType.ENEMY_BOSS then
          { st with ents := spawnExplosion ents2 target.pos true,
                    gs := { st.gs with gameWon := true, score := st.gs.score + 10000 } }
        else
          let ents3 := spawnExplosion ents2 target.pos false
          let gs1 := { st.gs with score := st.gs.score + 100 }
          if isPowerup then
            let newWeapon := match target.dropType with
              | some w => if w = WeaponType.NORMAL then WeaponType.SPREAD else w
              | none => WeaponType.SPREAD
            { st with ents := ents3 ++ [textPopupParticle target.pos],
                      gs := gs1,
                      player := { st.player with weaponType := newWeapon } }
          else { st with ents := ents3, gs := gs1 }
      else
        let ents2 := ents1.set j target1
        if target.type = EntityType.ENEMY_BOSS then
          { st with ents := ents2 ++ [hitSparkParticle e.pos] }
        else { st with ents := ents2 }
    else st

/-- The whole inner forEach for the player bullet at index i; the range is
the list length at inner-loop entry. -/
def bulletPass (st : St) (i : ℕ) : St :=
  (List.range st.ents.length).foldl (fun s j => pairwiseHit s i j) st

/-- Entity kinds lethal to the player on overlap (lines 841-849).  Water is
not among them in this engine: water kills only through the
fall-below-world check. -/
def isLethalType (t : EntityType) : Bool :=
  decide (t = EntityType.ENEMY_RUNNER ∨ t = EntityType.BULLET_ENEMY ∨
          t = EntityType.BULLET_ROCKET ∨ t = EntityType.ENEMY_FLYING ∨
          t = EntityType.ENEMY_TANK ∨ t = EntityType.ENEMY_BOSS ∨
          t = EntityType.ENEMY_SNIPER ∨ t = EntityType.ENEMY_MINE)

/-- Lethal-overlap branch of the player-collision checks (lines 851-861):
on overlap with a lethal entity the player dies unless the invincibility
counter is positive, and a mine additionally blows itself up. -/
def lethalStep (st : St) (i : ℕ) : St :=
  let e := st.ents.getD i default
  if isLethalType e.type && checkRectOverlap e st.player then
    let st' := if st.player.invincibility ≤ 0 then handlePlayerDeath st else st
    if e.type = EntityType.ENEMY_MINE then
      { st' with ents := spawnExplosion (st'.ents.set i { e with active := false }) e.pos true }
    else st'
  else st

/-- Player-collision tail of the outer loop body (lines 840-865): runs only
while the player is active; the lethal-overlap branch first, then the
fall-below-world check, which is not guarded by invincibility. -/
def playerCollide (st : St) (i : ℕ) : St :=
  if st.player.active = false then st
  else
    let st1 := lethalStep st i
    if st1.player.pos.y > CANVAS_HEIGHT then handlePlayerDeath st1 else st1

/-- Outer loop body (lines 789-866) for the entity at index i: skip
inactive entities; a player bullet runs its inner pass; then the
player-collision checks run for this entity. -/
def outerBody (st : St) (i : ℕ) : St :=
  let e := st.ents.getD i default
  if e.active = false then st
  else
    let st1 := if e.type = EntityType.BULLET_PLAYER then bulletPass st i else st
    playerCollide st1 i

/-- The full interaction-resolution pass: the outer forEach over the
indices present at pass entry. -/
def interactionPass (st : St) : St :=
  (List.range st.ents.length).foldl outerBody st

/-! ### Preservation lemmas on the interaction pass -/

theorem handlePlayerDeath_inactive (st : St) (h : st.player.active = false) :
    handlePlayerDeath st = st := by
  simp [handlePlayerDeath, h]

theorem handlePlayerDeath_active (st : St) (h : st.player.active = true) :
    (handlePlayerDeath st).player.active = false ∧
    (handlePlayerDeath st).player.pos = st.player.pos ∧
    (handlePlayerDeath st).player.invincibility = st.player.invincibility ∧
    (handlePlayerDeath st).gs.lives = livesAfterDeath st.gs.lives := by
  simp [handlePlayerDeath, h]

theorem handlePlayerDeath_length (st : St) (h : st.player.active = true) :
    (handlePlayerDeath st).ents.length = st.ents.length + 20 := by
  simp [handlePlayerDeath, h, spawnExplosion]

theorem handlePlayerDeath_length_le (st : St) :
    st.ents.length ≤ (handlePlayerDeath st).ents.length := by
  unfold handlePlayerDeath
  split_ifs <;> simp [spawnExplosion]

theorem pairwiseHit_player_facts (st : St) (i j : ℕ) :
    (pairwiseHit st i j).player.active = st.player.active ∧
    (pairwiseHit st i j).player.pos = st.player.pos ∧
    (pairwiseHit st i j).player.invincibility = st.player.invincibility ∧
    (pairwiseHit st i j).gs.lives = st.gs.lives := by
  unfold pairwiseHit
  dsimp only
  split_ifs <;> simp

theorem foldl_preserve {α : Type} (f : St → α → St) (P : St → Prop)
    (hstep : ∀ s a, P s → P (f s a)) :
    ∀ (l : List α) (s : St), P s → P (l.foldl f s) := by
  intro l
  induction l with
  | nil => intro s hs; simpa using hs
  | cons a l ih => intro s hs; exact ih (f s a) (hstep s a hs)

theorem bulletPass_player_facts (st : St) (i : ℕ) :
    (bulletPass st i).player.active = st.player.active ∧
    (bulletPass st i).player.pos = st.player.pos ∧
    (bulletPass st i).player.invincibility = st.player.invincibility ∧
    (bulletPass st i).gs.lives = st.gs.lives := by
  unfold bulletPass
  refine foldl_preserve (fun s j => pairwiseHit s i j)
    (fun s => s.player.active = st.player.active ∧ s.player.pos = st.player.pos ∧
      s.player.invincibility = st.player.invincibility ∧ s.gs.lives = st.gs.lives)
    ?_ (List.range st.ents.length) st ⟨rfl, rfl, rfl, rfl⟩
  intro s a hs
  obtain ⟨h1, h2, h3, h4⟩ := pairwiseHit_player_facts s i a
  exact ⟨h1.trans hs.1, h2.trans hs.2.1, h3.trans hs.2.2.1, h4.trans hs.2.2.2⟩

theorem pairwiseHit_length_le (st : St) (i j : ℕ) :
    st.ents.length ≤ (pairwiseHit st i j).ents.length := by
  unfold pairwiseHit
  dsimp only
  split_ifs <;> simp [spawnExplosion]

theorem bulletPass_length_le (st : St) (i : ℕ) :
    st.ents.length ≤ (bulletPass st i).ents.length := by
  unfold bulletPass
  refine foldl_preserve (fun s j => pairwiseHit s i j)
    (fun s => st.ents.length ≤ s.ents.length) ?_ (List.range st.ents.length) st le_rfl
  intro s a hs
  exact hs.trans (pairwiseHit_length_le s i a)

theorem playerCollide_inactive (st : St) (i : ℕ) (h : st.player.active = false) :
    playerCollide st i = st := by
  simp [playerCollide, h]

theorem lethalStep_safe (st : St) (i : ℕ) (hinv : 0 < st.player.invincibility) :
    (lethalStep st i).player = st.player ∧
    (lethalStep st i).gs.lives = st.gs.lives := by
  unfold lethalStep
  dsimp only
  rw [if_neg (not_le.mpr hinv)]
  split_ifs <;> simp

theorem lethalStep_skip (st : St) (i : ℕ)
    (hcond : ¬ (isLethalType (st.ents.getD i default).type = true ∧
                checkRectOverlap (st.ents.getD i default) st.player = true)) :
    lethalStep st i = st := by
  unfold lethalStep
  dsimp only
  rw [if_neg]
  simpa using hcond

theorem lethalStep_length_le (st : St) (i : ℕ) :
    st.ents.length ≤ (lethalStep st i).ents.length := by
  have hh := handlePlayerDeath_length_le st
  unfold lethalStep
  dsimp only
  split_ifs <;> simp [spawnExplosion] <;> omega

theorem lethalStep_kill (st : St) (i : ℕ) (h : st.player.active = true)
    (hinv : st.player.invincibility ≤ 0)
    (hl : isLethalType (st.ents.getD i default).type = true)
    (ho : checkRectOverlap (st.ents.getD i default) st.player = true) :
    (lethalStep st i).player.active = false ∧
    (lethalStep st i).player.pos = st.player.pos ∧
    (lethalStep st i).gs.lives = livesAfterDeath st.gs.lives ∧
    st.ents.length + 20 ≤ (lethalStep st i).ents.length := by
  have hcond : (isLethalType (st.ents.getD i default).type &&
      checkRectOverlap (st.ents.getD i default) st.player) = true := by rw [hl, ho]; rfl
  have hlen := handlePlayerDeath_length st h
  unfold lethalStep
  dsimp only
  rw [if_pos hcond, if_pos hinv]
  obtain ⟨d1, d2, _, d4⟩ := handlePlayerDeath_active st h
  split_ifs <;> simp_all [spawnExplosion]

theorem playerCollide_active_eq (st : St) (i : ℕ) (h : st.player.active = true) :
    playerCollide st i =
      (if (lethalStep st i).player.pos.y > CANVAS_HEIGHT then handlePlayerDeath (lethalStep st i)
       else lethalStep st i) := by
  unfold playerCollide
  rw [if_neg (by simp [h])]

theorem playerCollide_safe (st : St) (i : ℕ) (h : st.player.active = true)
    (hinv : 0 < st.player.invincibility) (hy : st.player.pos.y ≤ CANVAS_HEIGHT) :
    (playerCollide st i).player = st.player ∧
    (playerCollide st i).gs.lives = st.gs.lives := by
  rw [playerCollide_active_eq st i h]
  obtain ⟨h1, h2⟩ := lethalStep_safe st i hinv
  rw [h1, if_neg (not_lt.mpr hy)]
  exact ⟨h1, h2⟩

theorem playerCollide_kill_fall (st : St) (i : ℕ) (h : st.player.active = true)
    (hy : CANVAS_HEIGHT < st.player.pos.y) :
    (playerCollide st i).player.active = false ∧
    (playerCollide st i).gs.lives = livesAfterDeath st.gs.lives ∧
    st.ents.length + 20 ≤ (playerCollide st i).ents.length := by
  rw [playerCollide_active_eq st i h]
  by_cases hk : (lethalStep st i).player.active = true
  · -- the lethal branch left the player alive; the fall check kills
    have hpos : (lethalStep st i).player.pos = st.player.pos := by
      by_cases hinv : 0 < st.player.invincibility
      · exact congrArg Entity.pos (lethalStep_safe st i hinv).1
      · by_cases hc : isLethalType (st.ents.getD i default).type = true ∧
            checkRectOverlap (st.ents.getD i default) st.player = true
        · exact absurd hk (by simp [(lethalStep_kill st i h (not_lt.mp hinv) hc.1 hc.2).1])
        · rw [lethalStep_skip st i hc]
    rw [hpos, if_pos hy]
    obtain ⟨d1, _, _, d4⟩ := handlePlayerDeath_active _ hk
    have dlen := handlePlayerDeath_length _ hk
    have slen := lethalStep_length_le st i
    refine ⟨d1, d4.trans ?_, by omega⟩
    -- lives were unchanged by the lethal branch in this case
    by_cases hinv : 0 < st.player.invincibility
    · rw [(lethalStep_safe st i hinv).2]
    · by_cases hc : isLethalType (st.ents.getD i default).type = true ∧
          checkRectOverlap (st.ents.getD i default) st.player = true
      · exact absurd hk (by simp [(lethalStep_kill st i h (not_lt.mp hinv) hc.1 hc.2).1])
      · rw [lethalStep_skip st i hc]
  · -- the lethal branch already killed: one decrement happened there
    have hk' : (lethalStep st i).player.active = false := by
      cases hb : (lethalStep st i).player.active
      · rfl
      · exact absurd hb hk
    have hkill : (lethalStep st i).gs.lives = livesAfterDeath st.gs.lives ∧
        st.ents.length + 20 ≤ (lethalStep st i).ents.length := by
      by_cases hinv : 0 < st.player.invincibility
      · exact absurd ((congrArg Entity.active (lethalStep_safe st i hinv).1).trans h) (by simp [hk'])
      · by_cases hc : isLethalType (st.ents.getD i default).type = true ∧
            checkRectOverlap (st.ents.getD i default) st.player = true
        · exact ⟨(lethalStep_kill st i h (not_lt.mp hinv) hc.1 hc.2).2.2.1,
            (lethalStep_kill st i h (not_lt.mp hinv) hc.1 hc.2).2.2.2⟩
        · exact absurd ((congrArg (fun s => s.player.active) (lethalStep_skip st i hc)).trans h)
            (by simp [hk'])
    by_cases hfall : (lethalStep st i).player.pos.y > CANVAS_HEIGHT
    · rw [if_pos hfall, handlePlayerDeath_inactive _ hk']
      exact ⟨hk', hkill.1, hkill.2⟩
    · rw [if_neg hfall]
      exact ⟨hk', hkill.1, hkill.2⟩

theorem outerBody_skip (st : St) (i : ℕ) (h : (st.ents.getD i default).active = false) :
    outerBody st i = st := by
  rw [List.getD_eq_getElem?_getD] at h
  unfold outerBody
  simp [h]

theorem outerBody_dead (st : St) (i : ℕ) (h : st.player.active = false) :
    (outerBody st i).player.active = false ∧ (outerBody st i).gs.lives = st.gs.lives := by
  unfold outerBody
  dsimp only
  split_ifs with h1 h2
  · exact ⟨h, rfl⟩
  · obtain ⟨b1, _, _, b4⟩ := bulletPass_player_facts st i
    rw [playerCollide_inactive _ _ (b1.trans h)]
    exact ⟨b1.trans h, b4⟩
  · rw [playerCollide_inactive _ _ h]
    exact ⟨h, rfl⟩

theorem outerBody_safe (st : St) (i : ℕ) (h : st.player.active = true)
    (hinv : 0 < st.player.invincibility) (hy : st.player.pos.y ≤ CANVAS_HEIGHT) :
    (outerBody st i).player.active = true ∧
    (outerBody st i).player.invincibility = st.player.invincibility ∧
    (outerBody st i).player.pos = st.player.pos ∧
    (outerBody st i).gs.lives = st.gs.lives := by
  unfold outerBody
  dsimp only
  split_ifs with h1 h2
  · exact ⟨h, rfl, rfl, rfl⟩
  · obtain ⟨b1, b2, b3, b4⟩ := bulletPass_player_facts st i
    obtain ⟨p1, p2⟩ := playerCollide_safe (bulletPass st i) i (b1.trans h)
      (by rw [b3]; exact hinv) (by rw [b2]; exact hy)
    refine ⟨?_, ?_, ?_, p2.trans b4⟩
    · rw [p1, b1, h]
    · rw [p1, b3]
    · rw [p1, b2]
  · obtain ⟨p1, p2⟩ := playerCollide_safe st i h hinv hy
    exact ⟨by rw [p1, h], by rw [p1], by rw [p1], p2⟩

theorem playerCollide_length_le (st : St) (i : ℕ) :
    st.ents.length ≤ (playerCollide st i).ents.length := by
  by_cases h : st.player.active = true
  · rw [playerCollide_active_eq st i h]
    have h1 := lethalStep_length_le st i
    have h2 := handlePlayerDeath_length_le (lethalStep st i)
    split_ifs <;> omega
  · rw [Bool.not_eq_true] at h
    rw [playerCollide_inactive st i h]

theorem outerBody_length_le (st : St) (i : ℕ) :
    st.ents.length ≤ (outerBody st i).ents.length := by
  unfold outerBody
  dsimp only
  split_ifs
  · exact le_rfl
  · exact (bulletPass_length_le st i).trans (playerCollide_length_le (bulletPass st i) i)
  · exact playerCollide_length_le st i

theorem foldl_outerBody_length_le (l : List ℕ) (st : St) :
    st.ents.length ≤ (l.foldl outerBody st).ents.length := by
  refine foldl_preserve outerBody (fun s => st.ents.length ≤ s.ents.length) ?_ l st le_rfl
  intro s a hs
  exact hs.trans (outerBody_length_le s a)

theorem foldl_outerBody_dead (l : List ℕ) (st : St) (h : st.player.active = false) :
    (l.foldl outerBody st).player.active = false ∧
    (l.foldl outerBody st).gs.lives = st.gs.lives := by
  refine foldl_preserve outerBody
    (fun s => s.player.active = false ∧ s.gs.lives = st.gs.lives) ?_ l st ⟨h, rfl⟩
  intro s a hs
  obtain ⟨d1, d2⟩ := outerBody_dead s a hs.1
  exact ⟨d1, d2.trans hs.2⟩

theorem outerBody_kill_fall (st : St) (i : ℕ) (h : st.player.active = true)
    (hy : CANVAS_HEIGHT < st.player.pos.y)
    (he : (st.ents.getD i default).active = true) :
    (outerBody st i).player.active = false ∧
    (outerBody st i).gs.lives = livesAfterDeath st.gs.lives ∧
    st.ents.length + 20 ≤ (outerBody st i).ents.length := by
  rw [List.getD_eq_getElem?_getD] at he
  unfold outerBody
  dsimp only
  rw [if_neg (by simp [he])]
  split_ifs with h2
  · obtain ⟨b1, b2, _, b4⟩ := bulletPass_player_facts st i
    have blen := bulletPass_length_le st i
    obtain ⟨k1, k2, k3⟩ := playerCollide_kill_fall (bulletPass st i) i (b1.trans h)
      (by rw [b2]; exact hy)
    exact ⟨k1, k2.trans (by rw [b4]), by omega⟩
  · exact playerCollide_kill_fall st i h hy

theorem foldl_outerBody_kill_fall :
    ∀ (l : List ℕ) (st : St), st.player.active = true →
    CANVAS_HEIGHT < st.player.pos.y →
    (∃ i ∈ l, (st.ents.getD i default).active = true) →
    (l.foldl outerBody st).player.active = false ∧
    (l.foldl outerBody st).gs.lives = livesAfterDeath st.gs.lives ∧
    st.ents.length + 20 ≤ (l.foldl outerBody st).ents.length := by
  intro l
  induction l with
  | nil =>
      rintro st _ _ ⟨i, hi, _⟩
      exact absurd hi (List.not_mem_nil i)
  | cons k l ih =>
      intro st h hy hex
      simp only [List.foldl_cons]
      by_cases hk : (st.ents.getD k default).active = true
      · obtain ⟨k1, k2, k3⟩ := outerBody_kill_fall st k h hy hk
        obtain ⟨d1, d2⟩ := foldl_outerBody_dead l (outerBody st k) k1
        have flen := foldl_outerBody_length_le l (outerBody st k)
        exact ⟨d1, d2.trans k2, by omega⟩
      · obtain ⟨i, hi, hia⟩ := hex
        have hik : i ≠ k := fun hik => hk (hik ▸ hia)
        have hk' : (st.ents.getD k default).active = false := by
          cases hb : (st.ents.getD k default).active
          · rfl
          · exact absurd hb hk
        rw [outerBody_skip st k hk']
        exact ih st h hy ⟨i, (List.mem_cons.mp hi).resolve_left hik, hia⟩

theorem exists_active_index {ents : List Entity} (hex : ∃ e ∈ ents, e.active = true) :
    ∃ i ∈ List.range ents.length, (ents.getD i default).active = true := by
  obtain ⟨e, he, ha⟩ := hex
  obtain ⟨i, hlt, hei⟩ := List.getElem_of_mem he
  refine ⟨i, List.mem_range.mpr hlt, ?_⟩
  rw [List.getD_eq_getElem?_getD, List.getElem?_eq_getElem hlt]
  simpa [hei] using ha

theorem livesAfterDeath_of_pos {l : ℤ} (h : 1 ≤ l) : livesAfterDeath l = l - 1 := by
  unfold livesAfterDeath
  rw [if_neg (by omega)]

/-- C10: when the active player is below the bottom world bound at
interaction-resolution time (with at least one active entity in the list,
so that the loop body runs), the player dies that same tick even though the
invincibility counter is positive: deactivation, a single life decrement,
and the big death explosion (at least the 20 particles of the large burst
are appended to the entity list) — the invincibility check guards only the
overlap branch, not the fall-off-world branch. -/
theorem c10_fall_death_ignores_invincibility (st : St)
    (hact : st.player.active = true)
    (hy : CANVAS_HEIGHT < st.player.pos.y)
    (hinv : 0 < st.player.invincibility)
    (hex : ∃ e ∈ st.ents, e.active = true)
    (hl : 1 ≤ st.gs.lives) :
    (interactionPass st).player.active = false ∧
    (interactionPass st).gs.lives = st.gs.lives - 1 ∧
    st.ents.length + 20 ≤ (interactionPass st).ents.length := by
  obtain ⟨d1, d2, d3⟩ := foldl_outerBody_kill_fall (List.range st.ents.length) st hact hy
    (exists_active_index hex)
  exact ⟨d1, by rw [interactionPass, d2, livesAfterDeath_of_pos hl], d3⟩

/-- Concrete state for the C10 witness: the invincible player has fallen
below the canvas while an active water kill-floor entity is present. -/
def c10State : St :=
  { ents := [{ id := "kill-floor", type := .WATER, pos := ⟨-1000, 520⟩, vel := ⟨0, 0⟩,
               size := ⟨50000, 200⟩, health := 999, active := true, facing := 1 }],
    player := { id := "player", type := .PLAYER, pos := ⟨100, 500⟩, vel := ⟨0, 10⟩,
                size := ⟨20, 44⟩, health := 1, active := true, facing := 1,
                invincibility := 90 },
    gs := { score := 0, lives := 30, gameOver := false, gameWon := false } }

theorem c10_fall_death_ignores_invincibility_witness :
    (interactionPass c10State).player.active = false ∧
    (interactionPass c10State).gs.lives = c10State.gs.lives - 1 ∧
    c10State.ents.length + 20 ≤ (interactionPass c10State).ents.length :=
  c10_fall_death_ignores_invincibility c10State rfl
    (by norm_num [c10State, CANVAS_HEIGHT])
    (by norm_num [c10State])
    ⟨_, List.mem_cons_self _ _, rfl⟩
    (by norm_num [c10State])

theorem interactionPass_safe (st : St) (h : st.player.active = true)
    (hinv : 0 < st.player.invincibility) (hy : st.player.pos.y ≤ CANVAS_HEIGHT) :
    (interactionPass st).player.active = true ∧
    (interactionPass st).gs.lives = st.gs.lives := by
  have hall := foldl_preserve outerBody
    (fun s => s.player.active = true ∧ s.player.invincibility = st.player.invincibility ∧
      s.player.pos = st.player.pos ∧ s.gs.lives = st.gs.lives)
    (fun s a hs => by
      obtain ⟨s1, s2, s3, s4⟩ := hs
      obtain ⟨o1, o2, o3, o4⟩ := outerBody_safe s a s1 (by rw [s2]; exact hinv)
        (by rw [s3]; exact hy)
      exact ⟨o1, o2.trans s2, o3.trans s3, o4.trans s4⟩)
    (List.range st.ents.length) st ⟨h, rfl, rfl, rfl⟩
  exact ⟨hall.1, hall.2.2.2⟩

theorem outerBody_id (st : St) (i : ℕ)
    (he : (st.ents.getD i default).active = true)
    (hnb : (st.ents.getD i default).type ≠ EntityType.BULLET_PLAYER)
    (hno : ¬ (isLethalType (st.ents.getD i default).type = true ∧
              checkRectOverlap (st.ents.getD i default) st.player = true))
    (h : st.player.active = true) (hy : st.player.pos.y ≤ CANVAS_HEIGHT) :
    outerBody st i = st := by
  have hskip := lethalStep_skip st i hno
  have he' := he
  rw [List.getD_eq_getElem?_getD] at he'
  unfold outerBody
  dsimp only
  rw [if_neg (by simp [he']), if_neg hnb, playerCollide_active_eq st i h, hskip,
    if_neg (not_lt.mpr hy)]

theorem outerBody_kill_overlap (st : St) (i : ℕ)
    (he : (st.ents.getD i default).active = true)
    (hnb : (st.ents.getD i default).type ≠ EntityType.BULLET_PLAYER)
    (hl : isLethalType (st.ents.getD i default).type = true)
    (ho : checkRectOverlap (st.ents.getD i default) st.player = true)
    (h : st.player.active = true) (hinv : st.player.invincibility ≤ 0)
    (hy : st.player.pos.y ≤ CANVAS_HEIGHT) :
    (outerBody st i).player.active = false ∧
    (outerBody st i).gs.lives = livesAfterDeath st.gs.lives := by
  obtain ⟨k1, k2, k3, _⟩ := lethalStep_kill st i h hinv hl ho
  have he' := he
  rw [List.getD_eq_getElem?_getD] at he'
  unfold outerBody
  dsimp only
  rw [if_neg (by simp [he']), if_neg hnb, playerCollide_active_eq st i h,
    if_neg (by rw [k2]; exact not_lt.mpr hy)]
  exact ⟨k1, k3⟩

theorem getD_mem_of_active {l : List Entity} {i : ℕ}
    (h : (l.getD i default).active = true) : l.getD i default ∈ l := by
  by_cases hi : i < l.length
  · rw [List.getD_eq_getElem?_getD, List.getElem?_eq_getElem hi]
    simpa using List.getElem_mem hi
  · exfalso
    rw [List.getD_eq_getElem?_getD, List.getElem?_eq_none (not_lt.mp hi)] at h
    simp only [Option.getD_none] at h
    exact Bool.false_ne_true h

theorem foldl_outerBody_kill_overlap :
    ∀ (l : List ℕ) (st : St), st.player.active = true →
    st.player.invincibility ≤ 0 → st.player.pos.y ≤ CANVAS_HEIGHT →
    (∀ e ∈ st.ents, e.type ≠ EntityType.BULLET_PLAYER) →
    (∃ i ∈ l, (st.ents.getD i default).active = true ∧
      isLethalType (st.ents.getD i default).type = true ∧
      checkRectOverlap (st.ents.getD i default) st.player = true) →
    (l.foldl outerBody st).player.active = false ∧
    (l.foldl outerBody st).gs.lives = livesAfterDeath st.gs.lives := by
  intro l
  induction l with
  | nil =>
      rintro st _ _ _ _ ⟨i, hi, _⟩
      exact absurd hi (List.not_mem_nil i)
  | cons k l ih =>
      intro st h hinv hy hnb hex
      simp only [List.foldl_cons]
      by_cases hk : (st.ents.getD k default).active = true
      · have hknb : (st.ents.getD k default).type ≠ EntityType.BULLET_PLAYER :=
          hnb _ (getD_mem_of_active hk)
        by_cases htr : isLethalType (st.ents.getD k default).type = true ∧
            checkRectOverlap (st.ents.getD k default) st.player = true
        · obtain ⟨k1, k2⟩ := outerBody_kill_overlap st k hk hknb htr.1 htr.2 h hinv hy
          obtain ⟨d1, d2⟩ := foldl_outerBody_dead l (outerBody st k) k1
          exact ⟨d1, d2.trans k2⟩
        · rw [outerBody_id st k hk hknb htr h hy]
          obtain ⟨i, hi, hia, hil, hio⟩ := hex
          have hik : i ≠ k := by
            rintro rfl
            exact htr ⟨hil, hio⟩
          exact ih st h hinv hy hnb ⟨i, (List.mem_cons.mp hi).resolve_left hik, hia, hil, hio⟩
      · have hk' : (st.ents.getD k default).active = false := by
          cases hb : (st.ents.getD k default).active
          · rfl
          · exact absurd hb hk
        rw [outerBody_skip st k hk']
        obtain ⟨i, hi, hia, hil, hio⟩ := hex
        have hik : i ≠ k := fun hik => hk (hik ▸ hia)
        exact ih st h hinv hy hnb ⟨i, (List.mem_cons.mp hi).resolve_left hik, hia, hil, hio⟩

/-- A water zone overlapping the player, as in zone 3 of generateLevel. -/
def c5Water : Entity :=
  { id := "water-zone-3", type := .WATER, pos := ⟨2000, 450⟩, vel := ⟨0, 0⟩,
    size := ⟨2500, 150⟩, health := 999, active := true, facing := 1 }

/-- State for the C5 counterexample: the active player, with invincibility
already at zero, stands overlapping the water zone while still above the
bottom world bound. -/
def c5State : St :=
  { ents := [c5Water],
    player := { id := "player", type := .PLAYER, pos := ⟨2100, 430⟩, vel := ⟨0, 0⟩,
                size := ⟨20, 44⟩, health := 1, active := true, facing := 1,
                invincibility := 0 },
    gs := { score := 0, lives := 30, gameOver := false, gameWon := false } }

/-- C5 counterexample: the claim counts the water hazard among the lethal
entities whose overlap kills once the invincibility counter reaches zero,
but the components engine's lethal set (lines 841-849) does not contain
WATER — here the zero-invincibility player overlaps an active water zone
and the interaction pass leaves the player alive with lives unchanged. -/
theorem c5_counterexample :
    c5Water.type = EntityType.WATER ∧ c5Water.active = true ∧
    checkRectOverlap c5Water c5State.player = true ∧
    c5State.player.invincibility = 0 ∧ c5State.player.active = true ∧
    (interactionPass c5State).player.active = true ∧
    (interactionPass c5State).gs.lives = c5State.gs.lives := by
  have hid : outerBody c5State 0 = c5State := by
    refine outerBody_id c5State 0 rfl (by decide) ?_ rfl
      (by norm_num [c5State, CANVAS_HEIGHT])
    rintro ⟨hl, _⟩
    revert hl
    decide
  have hpass : interactionPass c5State = c5State := by
    have hlen : c5State.ents.length = 1 := rfl
    rw [interactionPass, hlen]
    simpa [List.range_succ] using hid
  refine ⟨rfl, rfl, ?_, rfl, rfl, ?_, ?_⟩
  · norm_num [checkRectOverlap, c5Water, c5State]
  · rw [hpass]
    rfl
  · rw [hpass]


/-- C5 (amended): in the components engine the overlap-lethal set is
runner, enemy bullet, rocket, flyer, tank, boss, sniper and mine — water is
not among them (water kills only through the fall-below-world check).
While the active player's invincibility counter is positive at
interaction-resolution time, the pass never deactivates the player or
changes lives; the per-tick decrement step lowers a positive counter by
exactly one; and once the counter is at zero, an overlap with an active
entity of the lethal set (in a frame with no player bullet in flight that
could destroy it first, and with the player above the bottom bound) kills
the player that same pass, with exactly one life decrement. -/
theorem c5_invincibility_window (st st2 : St) (p : Entity)
    (h1 : st.player.active = true) (h1i : 0 < st.player.invincibility)
    (h1y : st.player.pos.y ≤ CANVAS_HEIGHT)
    (h2p : 0 < p.invincibility)
    (h3 : st2.player.active = true) (h3i : st2.player.invincibility ≤ 0)
    (h3y : st2.player.pos.y ≤ CANVAS_HEIGHT)
    (h3nb : ∀ e ∈ st2.ents, e.type ≠ EntityType.BULLET_PLAYER)
    (h3ex : ∃ e ∈ st2.ents, e.active = true ∧ isLethalType e.type = true ∧
      checkRectOverlap e st2.player = true)
    (h3l : 1 ≤ st2.gs.lives) :
    ((interactionPass st).player.active = true ∧
     (interactionPass st).gs.lives = st.gs.lives) ∧
    (invincibilityTick p).invincibility = p.invincibility - 1 ∧
    ((interactionPass st2).player.active = false ∧
     (interactionPass st2).gs.lives = st2.gs.lives - 1) := by
  refine ⟨interactionPass_safe st h1 h1i h1y, ?_, ?_⟩
  · simp [invincibilityTick, h2p]
  · have hex : ∃ i ∈ List.range st2.ents.length,
        (st2.ents.getD i default).active = true ∧
        isLethalType (st2.ents.getD i default).type = true ∧
        checkRectOverlap (st2.ents.getD i default) st2.player = true := by
      obtain ⟨e, he, ha, hl, ho⟩ := h3ex
      obtain ⟨i, hlt, hei⟩ := List.getElem_of_mem he
      have hgd : st2.ents.getD i default = e := by
        rw [List.getD_eq_getElem?_getD, List.getElem?_eq_getElem hlt]
        simp [hei]
      exact ⟨i, List.mem_range.mpr hlt, by rw [hgd]; exact ⟨ha, hl, ho⟩⟩
    obtain ⟨d1, d2⟩ := foldl_outerBody_kill_overlap (List.range st2.ents.length) st2
      h3 h3i h3y h3nb hex
    exact ⟨d1, by rw [interactionPass, d2, livesAfterDeath_of_pos h3l]⟩

/-- State for the C5 witness kill part: a zero-invincibility player
overlapping an active runner. -/
def c5KillState : St :=
  { ents := [{ id := "runner-1", type := .ENEMY_RUNNER, pos := ⟨2100, 420⟩, vel := ⟨-2, 0⟩,
               size := ⟨24, 44⟩, health := 1, active := true, facing := -1 }],
    player := { id := "player", type := .PLAYER, pos := ⟨2100, 430⟩, vel := ⟨0, 0⟩,
                size := ⟨20, 44⟩, health := 1, active := true, facing := 1,
                invincibility := 0 },
    gs := { score := 0, lives := 30, gameOver := false, gameWon := false } }

/-- State for the C5 witness safe part: the same configuration but with the
invincibility counter still positive. -/
def c5SafeState : St :=
  { c5KillState with player := { c5KillState.player with invincibility := 180 } }

theorem c5_invincibility_window_witness :
    ((interactionPass c5SafeState).player.active = true ∧
     (interactionPass c5SafeState).gs.lives = c5SafeState.gs.lives) ∧
    (invincibilityTick c5SafeState.player).invincibility =
      c5SafeState.player.invincibility - 1 ∧
    ((interactionPass c5KillState).player.active = false ∧
     (interactionPass c5KillState).gs.lives = c5KillState.gs.lives - 1) :=
  c5_invincibility_window c5SafeState c5KillState c5SafeState.player
    rfl (by norm_num [c5SafeState, c5KillState])
    (by norm_num [c5SafeState, c5KillState, CANVAS_HEIGHT])
    (by norm_num [c5SafeState, c5KillState])
    rfl (by norm_num [c5KillState])
    (by norm_num [c5KillState, CANVAS_HEIGHT])
    (by
      intro e he
      have he' : e = c5KillState.ents.getD 0 default := by
        rcases List.mem_singleton.mp he with rfl
        rfl
      rw [he']
      decide)
    ⟨_, List.mem_cons_self _ _,
      rfl, rfl, by norm_num [checkRectOverlap, c5KillState]⟩
    (by norm_num [c5KillState])

/-! ### Index bookkeeping for the pairwise bullet effect -/

theorem lt_length_of_getD_active {l : List Entity} {i : ℕ}
    (h : (l.getD i default).active = true) : i < l.length := by
  by_contra hi
  rw [List.getD_eq_getElem?_getD, List.getElem?_eq_none (not_lt.mp hi)] at h
  simp only [Option.getD_none] at h
  exact Bool.false_ne_true h

theorem getD_set_self (l : List Entity) (i : ℕ) (v : Entity) (hi : i < l.length) :
    (l.set i v).getD i default = v := by
  rw [List.getD_eq_getElem?_getD, List.getElem?_set_self', List.getElem?_eq_getElem hi]
  rfl

theorem getD_set_ne (l : List Entity) (i j : ℕ) (v : Entity) (hij : i ≠ j) :
    (l.set i v).getD j default = l.getD j default := by
  rw [List.getD_eq_getElem?_getD, List.getD_eq_getElem?_getD, List.getElem?_set_ne hij]

theorem getD_append_left (l r : List Entity) (i : ℕ) (hi : i < l.length) :
    (l ++ r).getD i default = l.getD i default := by
  rw [List.getD_eq_getElem?_getD, List.getD_eq_getElem?_getD,
    List.getElem?_append_left hi]

theorem getD_spawnExplosion (l : List Entity) (pos : Vec2) (big : Bool) (i : ℕ)
    (hi : i < l.length) :
    (spawnExplosion l pos big).getD i default = l.getD i default :=
  getD_append_left l _ i hi

/-- C6: in the pairwise bullet-target effect, when an active player bullet
overlaps an active enemy or power-up capsule, the target's health is
decremented by exactly 1 and the bullet ends the effect active exactly when
it carries the piercing flag — in particular a non-piercing bullet is
deactivated even when the target survives with positive health. -/
theorem c6_bullet_consumption (st : St) (i j : ℕ) (hij : i ≠ j)
    (hbt : (st.ents.getD i default).type = EntityType.BULLET_PLAYER)
    (hba : (st.ents.getD i default).active = true)
    (hta : (st.ents.getD j default).active = true)
    (htt : isEnemyTargetType (st.ents.getD j default).type = true ∨
           (st.ents.getD j default).type = EntityType.POWERUP_CAPSULE)
    (ho : checkRectOverlap (st.ents.getD i default) (st.ents.getD j default) = true) :
    ((pairwiseHit st i j).ents.getD j default).health =
      (st.ents.getD j default).health - 1 ∧
    ((pairwiseHit st i j).ents.getD i default).active =
      (st.ents.getD i default).piercing := by
  have hi : i < st.ents.length := lt_length_of_getD_active hba
  have hj : j < st.ents.length := lt_length_of_getD_active hta
  have hcond : ((isEnemyTargetType (st.ents.getD j default).type ||
      decide ((st.ents.getD j default).type = EntityType.POWERUP_CAPSULE) ||
      decide ((st.ents.getD j default).type = EntityType.ENEMY_MINE)) &&
      checkRectOverlap (st.ents.getD i default) (st.ents.getD j default)) = true := by
    rcases htt with h | h
    · rw [h, ho]; rfl
    · rw [h, ho]; decide
  have hgi : ∀ (l1 : List Entity), l1.length = st.ents.length →
      ∀ v, ((l1.set j v).getD i default) = l1.getD i default :=
    fun l1 _ v => getD_set_ne l1 j i v (Ne.symm hij)
  unfold pairwiseHit
  dsimp only
  rw [if_neg (by rw [hta]; simp), if_pos hcond]
  by_cases hp : (st.ents.getD i default).piercing = true
  · rw [if_pos hp]
    by_cases hh : (st.ents.getD j default).health - 1 ≤ 0
    · rw [if_pos hh]
      by_cases hB : (st.ents.getD j default).type = EntityType.ENEMY_BOSS
      · rw [if_pos hB]
        dsimp only
        constructor
        · rw [getD_spawnExplosion _ _ _ j (by simpa using hj), getD_set_self _ _ _ (by simpa using hj)]
        · rw [getD_spawnExplosion _ _ _ i (by simpa using hi),
            getD_set_ne _ _ _ _ (Ne.symm hij), hba, hp]
      · rw [if_neg hB]
        by_cases hP : decide ((st.ents.getD j default).type = EntityType.POWERUP_CAPSULE) = true
        · rw [if_pos hP]
          dsimp only
          constructor
          · rw [getD_append_left _ _ j (by simp [spawnExplosion]; omega),
              getD_spawnExplosion _ _ _ j (by simpa using hj),
              getD_set_self _ _ _ (by simpa using hj)]
          · rw [getD_append_left _ _ i (by simp [spawnExplosion]; omega),
              getD_spawnExplosion _ _ _ i (by simpa using hi),
              getD_set_ne _ _ _ _ (Ne.symm hij), hba, hp]
        · rw [if_neg hP]
          dsimp only
          constructor
          · rw [getD_spawnExplosion _ _ _ j (by simpa using hj),
              getD_set_self _ _ _ (by simpa using hj)]
          · rw [getD_spawnExplosion _ _ _ i (by simpa using hi),
              getD_set_ne _ _ _ _ (Ne.symm hij), hba, hp]
    · rw [if_neg hh]
      by_cases hB : (st.ents.getD j default).type = EntityType.ENEMY_BOSS
      · rw [if_pos hB]
        dsimp only
        constructor
        · rw [getD_append_left _ _ j (by simpa using hj),
            getD_set_self _ _ _ (by simpa using hj)]
        · rw [getD_append_left _ _ i (by simpa using hi),
            getD_set_ne _ _ _ _ (Ne.symm hij), hba, hp]
      · rw [if_neg hB]
        dsimp only
        constructor
        · rw [getD_set_self _ _ _ (by simpa using hj)]
        · rw [getD_set_ne _ _ _ _ (Ne.symm hij), hba, hp]
  · rw [if_neg hp]
    have hp' : (st.ents.getD i default).piercing = false := by
      cases hb : (st.ents.getD i default).piercing
      · rfl
      · exact absurd hb hp
    have hlen : (st.ents.set i { st.ents.getD i default with active := false }).length =
        st.ents.length := by simp
    have hgj : (st.ents.set i { st.ents.getD i default with active := false }).getD j default =
        st.ents.getD j default := getD_set_ne _ _ _ _ hij
    have hgi2 : ∀ v, ((st.ents.set i { st.ents.getD i default with active := false }).set j v).getD
        i default = { st.ents.getD i default with active := false } := by
      intro v
      rw [getD_set_ne _ _ _ _ (Ne.symm hij), getD_set_self _ _ _ (by simpa using hi)]
    by_cases hh : (st.ents.getD j default).health - 1 ≤ 0
    · rw [if_pos hh]
      by_cases hB : (st.ents.getD j default).type = EntityType.ENEMY_BOSS
      · rw [if_pos hB]
        dsimp only
        constructor
        · rw [getD_spawnExplosion _ _ _ j (by simpa using hj),
            getD_set_self _ _ _ (by simp [hlen]; simpa using hj)]
        · rw [getD_spawnExplosion _ _ _ i (by simpa using hi), hgi2, hp']
      · rw [if_neg hB]
        by_cases hP : decide ((st.ents.getD j default).type = EntityType.POWERUP_CAPSULE) = true
        · rw [if_pos hP]
          dsimp only
          constructor
          · rw [getD_append_left _ _ j (by simp [spawnExplosion]; omega),
              getD_spawnExplosion _ _ _ j (by simpa using hj),
              getD_set_self _ _ _ (by simp [hlen]; simpa using hj)]
          · rw [getD_append_left _ _ i (by simp [spawnExplosion]; omega),
              getD_spawnExplosion _ _ _ i (by simpa using hi), hgi2, hp']
        · rw [if_neg hP]
          dsimp only
          constructor
          · rw [getD_spawnExplosion _ _ _ j (by simpa using hj),
              getD_set_self _ _ _ (by simp [hlen]; simpa using hj)]
          · rw [getD_spawnExplosion _ _ _ i (by simpa using hi), hgi2, hp']
    · rw [if_neg hh]
      by_cases hB : (st.ents.getD j default).type = EntityType.ENEMY_BOSS
      · rw [if_pos hB]
        dsimp only
        constructor
        · rw [getD_append_left _ _ j (by simpa using hj),
            getD_set_self _ _ _ (by simp [hlen]; simpa using hj)]
        · rw [getD_append_left _ _ i (by simpa using hi), hgi2, hp']
      · rw [if_neg hB]
        dsimp only
        constructor
        · rw [getD_set_self _ _ _ (by simp [hlen]; simpa using hj)]
        · rw [hgi2, hp']

def c2gs : GameState := { score := 0, lives := 30, gameOver := false, gameWon := false }

def c2Player : Entity :=
  { id := "player", type := .PLAYER, pos := ⟨10000, 0⟩, vel := ⟨0, 0⟩,
    size := ⟨20, 44⟩, health := 1, active := true, facing := 1 }

def c2PierceBullet : Entity :=
  { id := "pbul-p", type := .BULLET_PLAYER, pos := ⟨100, 100⟩, vel := ⟨15, 0⟩,
    size := ⟨24, 6⟩, health := 1, active := true, facing := 1, piercing := true }

def c2EnemyA : Entity :=
  { id := "runner-a", type := .ENEMY_RUNNER, pos := ⟨90, 70⟩, vel := ⟨-2, 0⟩,
    size := ⟨24, 44⟩, health := 1, active := true, facing := -1 }

def c2EnemyB : Entity :=
  { id := "runner-b", type := .ENEMY_RUNNER, pos := ⟨110, 90⟩, vel := ⟨-2, 0⟩,
    size := ⟨24, 44⟩, health := 1, active := true, facing := -1 }

/-- One piercing laser bullet overlapping two stacked 1-health runners. -/
def c2PierceState : St :=
  { ents := [c2PierceBullet, c2EnemyA, c2EnemyB], player := c2Player, gs := c2gs }

def c2PlainBullet : Entity :=
  { id := "pbul-1", type := .BULLET_PLAYER, pos := ⟨100, 100⟩, vel := ⟨10, 0⟩,
    size := ⟨6, 6⟩, health := 1, active := true, facing := 1, piercing := false }

def c2EnemyC : Entity :=
  { id := "runner-c", type := .ENEMY_RUNNER, pos := ⟨90, 70⟩, vel := ⟨-2, 0⟩,
    size := ⟨24, 44⟩, health := 1, active := true, facing := -1 }

/-- Two non-piercing bullets both overlapping the same 1-health runner. -/
def c2TwoBulletState : St :=
  { ents := [c2PlainBullet, { c2PlainBullet with id := "pbul-2" }, c2EnemyC],
    player := c2Player, gs := c2gs }

theorem isEnemyTargetType_ne_powerup {t : EntityType}
    (h : isEnemyTargetType t = true) : ¬ t = EntityType.POWERUP_CAPSULE := by
  cases t <;> simp_all [isEnemyTargetType]

/-- C2: the interaction resolver deactivates and scores a target exactly
once per zero crossing.  Conjuncts: (1) the pairwise effect checks the
target's active flag first and is a complete no-op on an already-dead
target, so overlapping bullets resolved later in the same pass cannot score
it again; (2) a hit on an active 1-health non-boss enemy deactivates it and
adds exactly 100 to the score; (3) concretely, a single piercing bullet
overlapping two 1-health enemies destroys and scores both (score 200) while
staying active itself; (4) concretely, two non-piercing bullets overlapping
one 1-health enemy score it exactly once (score 100), the first bullet is
consumed and the second keeps flying. -/
theorem c2_exactly_once_scoring :
    (∀ (st : St) (i j : ℕ), (st.ents.getD j default).active = false →
        pairwiseHit st i j = st) ∧
    (∀ (st : St) (i j : ℕ), i ≠ j →
        (st.ents.getD i default).active = true →
        (st.ents.getD j default).active = true →
        isEnemyTargetType (st.ents.getD j default).type = true →
        (st.ents.getD j default).type ≠ EntityType.ENEMY_BOSS →
        (st.ents.getD j default).health = 1 →
        checkRectOverlap (st.ents.getD i default) (st.ents.getD j default) = true →
        ((pairwiseHit st i j).ents.getD j default).active = false ∧
        (pairwiseHit st i j).gs.score = st.gs.score + 100) ∧
    ((interactionPass c2PierceState).gs.score = 200 ∧
     ((interactionPass c2PierceState).ents.getD 1 default).active = false ∧
     ((interactionPass c2PierceState).ents.getD 2 default).active = false ∧
     ((interactionPass c2PierceState).ents.getD 0 default).active = true) ∧
    ((interactionPass c2TwoBulletState).gs.score = 100 ∧
     ((interactionPass c2TwoBulletState).ents.getD 2 default).active = false ∧
     ((interactionPass c2TwoBulletState).ents.getD 0 default).active = false ∧
     ((interactionPass c2TwoBulletState).ents.getD 1 default).active = true) := by
  refine ⟨?_, ?_, ?_, ?_⟩
  · intro st i j h
    unfold pairwiseHit
    dsimp only
    rw [if_pos h]
  · intro st i j hij hba hta htt hnB hh1 ho
    have hi : i < st.ents.length := lt_length_of_getD_active hba
    have hj : j < st.ents.length := lt_length_of_getD_active hta
    have hcond : ((isEnemyTargetType (st.ents.getD j default).type ||
        decide ((st.ents.getD j default).type = EntityType.POWERUP_CAPSULE) ||
        decide ((st.ents.getD j default).type = EntityType.ENEMY_MINE)) &&
        checkRectOverlap (st.ents.getD i default) (st.ents.getD j default)) = true := by
      rw [htt, ho]; rfl
    have hh : (st.ents.getD j default).health - 1 ≤ 0 := by rw [hh1]; decide
    have hP : ¬ (decide ((st.ents.getD j default).type = EntityType.POWERUP_CAPSULE) = true) := by
      simp only [decide_eq_true_eq]
      exact isEnemyTargetType_ne_powerup htt
    unfold pairwiseHit
    dsimp only
    rw [if_neg (by rw [hta]; simp), if_pos hcond]
    by_cases hp : (st.ents.getD i default).piercing = true
    · rw [if_pos hp, if_pos hh, if_neg hnB, if_neg hP]
      dsimp only
      refine ⟨?_, rfl⟩
      rw [getD_spawnExplosion _ _ _ j (by simpa using hj),
        getD_set_self _ _ _ (by simpa using hj)]
    · rw [if_neg hp, if_pos hh, if_neg hnB, if_neg hP]
      dsimp only
      refine ⟨?_, rfl⟩
      rw [getD_spawnExplosion _ _ _ j (by simp; simpa using hj),
        getD_set_self _ _ _ (by simp; simpa using hj)]
  · decide
  · decide

theorem c2_exactly_once_scoring_witness :
    ((pairwiseHit c2TwoBulletState 0 2).ents.getD 2 default).active = false ∧
    (pairwiseHit c2TwoBulletState 0 2).gs.score = c2TwoBulletState.gs.score + 100 :=
  c2_exactly_once_scoring.2.1 c2TwoBulletState 0 2 (by decide) rfl rfl
    (by decide) (by decide) rfl
    (by norm_num [checkRectOverlap, c2TwoBulletState, c2PlainBullet, c2EnemyC])

theorem c6_bullet_consumption_witness :
    ((pairwiseHit c2TwoBulletState 0 2).ents.getD 2 default).health =
      (c2TwoBulletState.ents.getD 2 default).health - 1 ∧
    ((pairwiseHit c2TwoBulletState 0 2).ents.getD 0 default).active =
      (c2TwoBulletState.ents.getD 0 default).piercing :=
  c6_bullet_consumption c2TwoBulletState 0 2 (by decide) rfl rfl rfl
    (Or.inl (by decide)) (by decide)

/-! ### Deferred respawn (components/GameEngine.tsx lines 99-110,
src/GameEngine.tsx lines 90-98, the engine appended to src/types.ts lines
168-174).

The respawn is a one-shot delayed callback scheduled by handlePlayerDeath;
each variant's callback is embedded as a function of the state it actually
reads when it fires. -/

/-- The player record the components-engine respawn callback writes:
reactivated at a camera-anchored position with a fresh invincibility
window, normal weapon and cleared counters. -/
def componentsRespawnedPlayer (cam : ℚ) (p : Entity) : Entity :=
  { p with
    active := true, health := 1,
    pos := ⟨max (cam + 64) 50, 0⟩, vel := ⟨0, 0⟩,
    weaponType := .NORMAL, invincibility := 180, cooldown := 0,
    jumpCount := 0, rocketTimer := 0 }

/-- Deferred respawn callback of components/GameEngine.tsx (lines 99-110).
Its guard `if (!isPlaying) return` reads the isPlaying value that the
handlePlayerDeath closure captured when the death was scheduled; the value
of isPlaying at fire time is never consulted by the code (a stale closure),
which is why that value is an unused parameter here. -/
def componentsRespawnFire (capturedIsPlaying : Bool) (_fireTimeIsPlaying : Bool)
    (cam : ℚ) (p : Entity) : Entity :=
  if capturedIsPlaying = false then p
  else componentsRespawnedPlayer cam p

/-- Deferred respawn callback of the engine appended to src/types.ts (lines
168-174): scheduled only when lives remain, and applied with no check of
the game state at fire time at all. -/
def typesRespawnFire (cam : ℚ) (p : Entity) : Entity :=
  { p with
    active := true, health := 1, pos := ⟨cam + 100, 50⟩, vel := ⟨0, 0⟩,
    weaponType := .NORMAL }

/-- Deferred respawn callback of src/GameEngine.tsx (lines 90-98): this
variant reads gameOver from the live game-state ref at fire time (it reuses
the cooldown field as the invincibility window). -/
def srcRespawnFire (gameOverAtFire : Bool) (cam : ℚ) (p : Entity) : Entity :=
  if gameOverAtFire then p
  else
    { p with
      active := true, health := 1, pos := ⟨cam + 100, 50⟩, vel := ⟨0, 0⟩,
      weaponType := .NORMAL, cooldown := 120 }

/-- The inactive player awaiting respawn. -/
def deadPlayer : Entity :=
  { id := "player", type := .PLAYER, pos := ⟨300, 200⟩, vel := ⟨0, 0⟩,
    size := ⟨20, 44⟩, health := 1, active := false, facing := 1 }

/-- C9 (code bug, evaluated at the failing input): a respawn scheduled
while the game was playing (captured isPlaying = true) that fires after the
game has been reset (fire-time isPlaying = false) still reactivates the
player in the components engine, because the guard tests the stale captured
value; the types.ts variant reactivates unconditionally; only the
src/GameEngine.tsx variant, whose guard reads the live ref, is a no-op
after a game over. -/
theorem c9_respawn_guard_is_stale :
    (componentsRespawnFire true false 0 deadPlayer).active = true ∧
    (typesRespawnFire 0 deadPlayer).active = true ∧
    (srcRespawnFire true 0 deadPlayer) = deadPlayer := by
  exact ⟨rfl, rfl, rfl⟩

end Contra
